import Mathlib

/-!
Shallow embedding of `src/constructor.rs` of the murmel networking stack:
the stack constructor (`Constructor::new`, `Constructor::run`) and the
connectivity-maintenance future `KeepConnected`, together with a model of the
bounded inbound-message channel (`std::sync::mpsc::sync_channel`) the
constructor creates.
-/

namespace Murmel

/-- Network addresses (`std::net::SocketAddr`); their internal structure is
irrelevant here, so they are modelled as bare identifiers. -/
abbrev SocketAddr := Nat

/-- `const MAX_PROTOCOL_VERSION: u32 = 70001;` (constructor.rs line 53). -/
def MAX_PROTOCOL_VERSION : Nat := 70001

/-- `const BACK_PRESSURE: usize = 10;` declared inside `Constructor::new`
(constructor.rs line 87): the bound of the inbound-message channel. -/
def BACK_PRESSURE : Nat := 10

/-- `USER_AGENT` (constructor.rs line 54); the build-time package version is a
parameter here because it is fixed only when the crate is compiled. -/
def USER_AGENT (pkg_version : String) : String :=
  "/Murmel:" ++ pkg_version ++ "/"

/-- `bitcoin::network::constants::Network`, as far as the constructor uses it. -/
inductive Network where
  | bitcoin
  | testnet
  | regtest
deriving DecidableEq

/-- The fields of `BitcoinP2PConfig` that `Constructor::new` fills in
(constructor.rs lines 91-98). `user_agent` is the `USER_AGENT` constant,
`height` starts at 0, `server` records whether any listening address was
supplied. -/
structure BitcoinP2PConfig where
  network : Network
  nonce : Nat
  max_protocol_version : Nat
  user_agent : String
  height : Nat
  server : Bool
deriving DecidableEq

/-- An inbound message envelope flowing from a peer session to the dispatcher:
the originating peer and its decoded message, both kept abstract since their
content never matters to the constructor. -/
structure Envelope where
  peer : Nat
  payload : Nat
deriving DecidableEq

/-- Model of `std::sync::mpsc::sync_channel(bound)`: a FIFO buffer with a fixed
capacity chosen at creation. -/
structure SyncChannel (α : Type) where
  capacity : Nat
  buffer : List α
deriving DecidableEq

/-- `mpsc::sync_channel(bound)` returns a fresh empty channel of the given
capacity (constructor.rs line 89 creates the single such channel). -/
def sync_channel (α : Type) (bound : Nat) : SyncChannel α :=
  { capacity := bound, buffer := [] }

/-- Result of a producer push on the bounded channel: either the new channel
state, or the producer blocks because the buffer is at capacity. -/
inductive SendResult (α : Type) where
  | sent (c : SyncChannel α)
  | blocked
deriving DecidableEq

/-- `SyncSender::send`: appends the message when a slot is free; when the
buffer already holds `capacity` messages the producer blocks until the
consumer frees a slot — the message is never dropped. -/
def SyncChannel.send {α : Type} (c : SyncChannel α) (m : α) : SendResult α :=
  if c.buffer.length < c.capacity then
    SendResult.sent { c with buffer := c.buffer ++ [m] }
  else
    SendResult.blocked

/-- The two listener kinds `Constructor::new` registers with the dispatcher
(constructor.rs lines 112-118). -/
inductive Listener where
  | HeaderDownload
  | Ping
deriving DecidableEq

/-- The dispatcher as the constructor sees it: its ordered list of registered
listeners. -/
structure Dispatcher where
  listeners : List Listener
deriving DecidableEq

/-- `Dispatcher::new(from_p2p)` starts with no listeners registered. -/
def Dispatcher.new : Dispatcher :=
  { listeners := [] }

/-- `Dispatcher::add_listener` appends one listener to the registration
sequence. -/
def Dispatcher.add_listener (d : Dispatcher) (l : Listener) : Dispatcher :=
  { d with listeners := d.listeners ++ [l] }

/-- Modelled from the spec: the Dispatcher implementation (dispatcher.rs, not
under src/) "fans out each message to all registered Listeners (protocol
handlers) in registration order", so the delivery order of every envelope is
exactly the registration list. -/
def Dispatcher.deliveryOrder (d : Dispatcher) : List Listener :=
  d.listeners

/-- The `P2PControl` commands `Constructor::new` issues; only `Bind` is sent
during construction (constructor.rs lines 120-122). -/
inductive P2PControl where
  | Bind (addr : SocketAddr)
deriving DecidableEq

/-- Everything `Constructor::new` (constructor.rs lines 82-125) builds: the
P2P configuration, the single bounded channel made by the one `sync_channel`
call, the back-pressure bound handed to `P2P::new` as its third argument, the
dispatcher with its registered listeners, and the control commands sent during
construction. -/
structure Construction where
  p2pconfig : BitcoinP2PConfig
  channel : SyncChannel Envelope
  p2p_back_pressure : Nat
  dispatcher : Dispatcher
  commands : List P2PControl
deriving DecidableEq

/-- `Constructor::new` (constructor.rs lines 82-125). `nonce` stands for the
value drawn from `thread_rng().next_u64()` and `pkg_version` for the
build-time package version; the chain database plays no role in what is
modelled. -/
def Constructor.new (network : Network) (nonce : Nat) (pkg_version : String)
    (listen : List SocketAddr) : Construction :=
  let channel := sync_channel Envelope BACK_PRESSURE
  let p2pconfig : BitcoinP2PConfig :=
    { network := network
      nonce := nonce
      max_protocol_version := MAX_PROTOCOL_VERSION
      user_agent := USER_AGENT pkg_version
      height := 0
      server := !listen.isEmpty }
  let dispatcher :=
    (Dispatcher.new.add_listener Listener.HeaderDownload).add_listener Listener.Ping
  let commands := listen.map P2PControl.Bind
  { p2pconfig := p2pconfig
    channel := channel
    p2p_back_pressure := BACK_PRESSURE
    dispatcher := dispatcher
    commands := commands }

/-- The `KeepConnected` future (constructor.rs lines 176-183). The thread-pool
handle `cex` and the shared `p2p` handle are external effects: the connected
peer count `p2p.n_connected_peers()` is an input of `poll`, and the spawn of
the dial task is recorded in the event trace. `earlier` is the
`HashSet<SocketAddr>` of addresses already tried. -/
structure KeepConnected where
  dns : List SocketAddr
  earlier : Finset SocketAddr
  min_connections : Nat
deriving DecidableEq

/-- Observable effects of one `KeepConnected::poll`, in program order:
the insertion of the chosen address into `earlier` (line 199) and the spawned
outbound dial `add_peer(PeerSource::Outgoing(choice))` (lines 200-206). -/
inductive MEvent where
  | markTried (a : SocketAddr)
  | dial (a : SocketAddr)
deriving DecidableEq

/-- `self.dns.iter().cloned().filter(|a| !self.earlier.contains(a)).collect()`
(constructor.rs lines 190-195): the discovered addresses not yet tried. -/
def KeepConnected.eligible (kc : KeepConnected) : List SocketAddr :=
  kc.dns.filter (fun a => decide (a ∉ kc.earlier))

/-- `KeepConnected::poll` (constructor.rs lines 188-210). `n_connected_peers`
is the count read from the p2p handle; `rng` stands for the
`thread_rng().next_u32()` draw, so the chosen address is
`eligible[rng % eligible.len()]`. Returns the updated value and its effect
trace. -/
def KeepConnected.poll (kc : KeepConnected) (n_connected_peers : Nat)
    (rng : Nat) : KeepConnected × List MEvent :=
  if n_connected_peers < kc.min_connections then
    if h : 0 < kc.eligible.length then
      let choice := kc.eligible.get ⟨rng % kc.eligible.length, Nat.mod_lt rng h⟩
      ({ kc with earlier := insert choice kc.earlier },
        [MEvent.markTried choice, MEvent.dial choice])
    else (kc, [])
  else (kc, [])

/-- The dial commands occurring in an effect trace. -/
def dialsOf (es : List MEvent) : List SocketAddr :=
  es.filterMap (fun e =>
    match e with
    | MEvent.dial a => some a
    | MEvent.markTried _ => none)

/-- The `keep_connected` value built in `Constructor::run` (constructor.rs
lines 154-160): the tried-set `earlier` starts empty (`HashSet::new()`) and
`dns` is the seed list returned by `dns_seed(network)` (dns.rs, outside src/),
passed here as a parameter. -/
def Constructor.mkKeepConnected (dns : List SocketAddr)
    (min_connections : Nat) : KeepConnected :=
  { dns := dns, earlier := ∅, min_connections := min_connections }

/-- The maintenance loop spawned by `Constructor::run` (constructor.rs
lines 161-163): `Interval::new(Duration::new(10, 0)).for_each(move |_|
keep_connected.clone())`. Every tick the closure clones the captured value
`kc0` and the executor polls that clone to completion; the clone — including
the insertion its poll performed — is then dropped, while `kc0` itself is
never mutated. `ticks` supplies, per tick, the connected-peer count the poll
reads and the rng draw. Each trace entry records the `earlier` set of the
value actually polled on that tick, and the tick's effect trace. -/
def loopTrace (kc0 : KeepConnected) :
    List (Nat × Nat) → List (Finset SocketAddr × List MEvent)
  | [] => []
  | (n, r) :: ticks =>
      let cloned := kc0
      (cloned.earlier, (cloned.poll n r).2) :: loopTrace kc0 ticks

/-- The maintenance loop under the assumption that every initiated dial
succeeds: a dial issued on one tick raises the connected-peer count by one
before the next tick fires (ticks are 10 s apart). As in `loopTrace`, every
tick polls a fresh clone of the startup value `kc0`. Returns the final
connected-peer count and the concatenated sequence of dialed addresses. -/
def runTicksAllSucceed (kc0 : KeepConnected) (n0 : Nat) :
    List Nat → Nat × List SocketAddr
  | [] => (n0, [])
  | r :: rs =>
      let dialed := dialsOf (kc0.poll n0 r).2
      let rest := runTicksAllSucceed kc0 (n0 + dialed.length) rs
      (rest.1, dialed ++ rest.2)

/-- Outcome of handing a task to the `futures` thread pool
(`ThreadPool::spawn`). -/
inductive SpawnOutcome where
  | ok
  | failed
deriving DecidableEq

/-- The per-peer startup loop of `Constructor::run` (constructor.rs
lines 145-152): one `executor.spawn(p2p.add_peer(...))` per initial peer, each
followed by `.expect("can not spawn task for peers")`, which panics on spawn
failure. `spawn` answers the successive spawn attempts; `Except.error` models
the panic raised by `expect`. On success, returns the startup dial targets in
order. -/
def spawnPeersLoop : List SocketAddr → (Nat → SpawnOutcome) →
    Except String (List SocketAddr)
  | [], _ => Except.ok []
  | a :: rest, spawn =>
      match spawn 0 with
      | SpawnOutcome.failed => Except.error "can not spawn task for peers"
      | SpawnOutcome.ok =>
          match spawnPeersLoop rest (fun i => spawn (i + 1)) with
          | Except.error m => Except.error m
          | Except.ok ds => Except.ok (a :: ds)

/-- The startup section of `Constructor::run` (constructor.rs lines 144-163):
the per-peer spawns, then the spawn of the keep-connected interval loop,
`.expect("can not keep connected")`. `spawn i` is the pool's answer to the
i-th spawn attempt (the interval loop is attempt number `peers.length`);
`Except.error` models the panic raised by `expect`. -/
def Constructor.runStartup (peers : List SocketAddr)
    (spawn : Nat → SpawnOutcome) : Except String (List SocketAddr) :=
  match spawnPeersLoop peers spawn with
  | Except.error m => Except.error m
  | Except.ok ds =>
      match spawn peers.length with
      | SpawnOutcome.failed => Except.error "can not keep connected"
      | SpawnOutcome.ok => Except.ok ds

/-- `KeepConnected::poll` including the spawn of the dial task (constructor.rs
lines 200-206): when a dial is issued, the task is handed to `self.cex` and a
spawn failure hits `.expect("can not add peer for outgoing connection")`,
i.e. panics (modelled by `Except.error`). -/
def KeepConnected.pollSpawning (kc : KeepConnected)
    (n_connected_peers rng : Nat) (spawn : SpawnOutcome) :
    Except String (KeepConnected × List MEvent) :=
  let r := kc.poll n_connected_peers rng
  if dialsOf r.2 = [] then
    Except.ok r
  else
    match spawn with
    | SpawnOutcome.ok => Except.ok r
    | SpawnOutcome.failed =>
        Except.error "can not add peer for outgoing connection"

/-- C3: on every maintenance tick, `KeepConnected::poll` issues no outbound
dial when the connected-peer count has reached `min_connections` or when the
eligible address set is empty, and issues exactly one outbound dial
otherwise — never more than one dial per tick, regardless of how far under
target the peer count is. -/
theorem at_most_one_dial_per_tick (kc : KeepConnected) (n rng : Nat) :
    (dialsOf (kc.poll n rng).2).length =
      if n < kc.min_connections ∧ kc.eligible ≠ [] then 1 else 0 := by
  by_cases h1 : n < kc.min_connections
  · by_cases h2 : kc.eligible = []
    · have hlen : ¬ 0 < kc.eligible.length := by simp [h2]
      simp [KeepConnected.poll, h1, hlen, h2, dialsOf]
    · have hlen : 0 < kc.eligible.length := List.length_pos.mpr h2
      simp [KeepConnected.poll, h1, hlen, h2, dialsOf]
  · simp [KeepConnected.poll, h1, dialsOf]

/-- C8: the connectivity target is constant — the `keep_connected` value of
`Constructor::run` carries exactly the `min_connections` argument, and
`KeepConnected::poll` never modifies the field. -/
theorem min_connections_constant (dns : List SocketAddr) (m : Nat)
    (kc : KeepConnected) (n rng : Nat) :
    (Constructor.mkKeepConnected dns m).min_connections = m ∧
    ((kc.poll n rng).1).min_connections = kc.min_connections := by
  refine ⟨rfl, ?_⟩
  by_cases h1 : n < kc.min_connections
  · by_cases hlen : 0 < kc.eligible.length
    · simp [KeepConnected.poll, h1, hlen]
    · simp [KeepConnected.poll, h1, hlen]
  · simp [KeepConnected.poll, h1]

/-- C10: the `server` flag of the P2P configuration built by
`Constructor::new` is not independently configurable: it is true exactly when
the `listen` address list is non-empty (`server: !listen.is_empty()`). -/
theorem server_iff_listen_nonempty (network : Network) (nonce : Nat)
    (pv : String) (listen : List SocketAddr) :
    (Constructor.new network nonce pv listen).p2pconfig.server =
      !listen.isEmpty ∧
    ((Constructor.new network nonce pv listen).p2pconfig.server = true ↔
      listen ≠ []) := by
  refine ⟨rfl, ?_⟩
  show (!listen.isEmpty) = true ↔ listen ≠ []
  simp

/-- C6: `Constructor::new` registers exactly two listeners with the
dispatcher, `HeaderDownload` first and `Ping` second, and this registration
order is the delivery order. -/
theorem two_listeners_registered_in_order (network : Network) (nonce : Nat)
    (pv : String) (listen : List SocketAddr) :
    (Constructor.new network nonce pv listen).dispatcher.listeners =
      [Listener.HeaderDownload, Listener.Ping] ∧
    (Constructor.new network nonce pv listen).dispatcher.deliveryOrder =
      [Listener.HeaderDownload, Listener.Ping] :=
  ⟨rfl, rfl⟩

/-- C7 counterexample: with the listen list `[5, 5]`, the address 5 occurs in
the list but `Constructor::new` issues two `Bind(5)` commands — not exactly
one — because the source loops over list entries, not distinct addresses. -/
theorem duplicate_listen_two_binds :
    (5 : SocketAddr) ∈ ([5, 5] : List SocketAddr) ∧
    ¬ (Constructor.new Network.bitcoin 0 "0.1.0" [5, 5]).commands.count
        (P2PControl.Bind 5) = 1 := by
  decide

/-- C7 amended: the Bind commands issued by `Constructor::new` are exactly the
`listen` list mapped over `Bind`, in order — one command per list entry. Hence
an address occurring k times in `listen` receives k `Bind` commands (exactly
one when the listen entries are distinct), and no `Bind` is issued for any
address not in `listen`. -/
theorem bind_commands_match_listen (network : Network) (nonce : Nat)
    (pv : String) (listen : List SocketAddr) :
    (Constructor.new network nonce pv listen).commands =
      listen.map P2PControl.Bind ∧
    (∀ a : SocketAddr,
      (Constructor.new network nonce pv listen).commands.count
        (P2PControl.Bind a) = listen.count a) ∧
    (∀ a : SocketAddr,
      P2PControl.Bind a ∈ (Constructor.new network nonce pv listen).commands ↔
        a ∈ listen) := by
  refine ⟨rfl, ?_, ?_⟩
  · intro a
    show (listen.map P2PControl.Bind).count (P2PControl.Bind a) = listen.count a
    exact List.count_map_of_injective listen P2PControl.Bind
      (fun x y h => by injection h) a
  · intro a
    show P2PControl.Bind a ∈ listen.map P2PControl.Bind ↔ a ∈ listen
    constructor
    · intro h
      rcases List.mem_map.mp h with ⟨b, hb, he⟩
      injection he with he2
      exact he2 ▸ hb
    · intro h
      exact List.mem_map_of_mem P2PControl.Bind h

/-- C2: on every tick on which `KeepConnected::poll` selects an address, the
selection is a member of the eligible set (discovered addresses minus the
tried-set), so it is in `dns` and not already tried; the effect trace marks it
tried strictly before the dial is issued; and the post-state tried-set is the
prior one with the selection inserted. -/
theorem selected_address_eligible_and_marked (kc : KeepConnected) (n rng : Nat)
    (h1 : n < kc.min_connections) (h2 : kc.eligible ≠ []) :
    ∃ a, a ∈ kc.eligible ∧ a ∈ kc.dns ∧ a ∉ kc.earlier ∧
      (kc.poll n rng).2 = [MEvent.markTried a, MEvent.dial a] ∧
      ((kc.poll n rng).1).earlier = insert a kc.earlier := by
  have hlen : 0 < kc.eligible.length := List.length_pos.mpr h2
  have e1 : kc.poll n rng =
      (KeepConnected.mk kc.dns
        (insert (kc.eligible.get ⟨rng % kc.eligible.length, Nat.mod_lt rng hlen⟩)
          kc.earlier)
        kc.min_connections,
      [MEvent.markTried
          (kc.eligible.get ⟨rng % kc.eligible.length, Nat.mod_lt rng hlen⟩),
        MEvent.dial
          (kc.eligible.get ⟨rng % kc.eligible.length, Nat.mod_lt rng hlen⟩)]) := by
    unfold KeepConnected.poll
    rw [if_pos h1, dif_pos hlen]
  have hmem : kc.eligible.get ⟨rng % kc.eligible.length, Nat.mod_lt rng hlen⟩ ∈
      kc.eligible := List.get_mem _ _ _
  have hfil := hmem
  simp only [KeepConnected.eligible, List.mem_filter, decide_eq_true_eq] at hfil
  refine ⟨kc.eligible.get ⟨rng % kc.eligible.length, Nat.mod_lt rng hlen⟩,
    hmem, hfil.1, hfil.2, ?_, ?_⟩
  · rw [e1]
  · rw [e1]

/-- C2 witness: pool [10, 11], target 2, zero connected peers, rng 0. -/
theorem selected_address_eligible_and_marked_witness :
    0 < (Constructor.mkKeepConnected [10, 11] 2).min_connections ∧
    (Constructor.mkKeepConnected [10, 11] 2).eligible ≠ [] ∧
    ∃ a, a ∈ (Constructor.mkKeepConnected [10, 11] 2).eligible ∧
      a ∈ (Constructor.mkKeepConnected [10, 11] 2).dns ∧
      a ∉ (Constructor.mkKeepConnected [10, 11] 2).earlier ∧
      ((Constructor.mkKeepConnected [10, 11] 2).poll 0 0).2 =
        [MEvent.markTried a, MEvent.dial a] ∧
      (((Constructor.mkKeepConnected [10, 11] 2).poll 0 0).1).earlier =
        insert a (Constructor.mkKeepConnected [10, 11] 2).earlier :=
  ⟨by decide, by decide,
    selected_address_eligible_and_marked (Constructor.mkKeepConnected [10, 11] 2)
      0 0 (by decide) (by decide)⟩

/-- C9: every maintenance tick polls a fresh clone of the value captured at
startup, so the tried-set observed at the start of every tick equals the
startup tried-set — insertions made during one tick are never visible to a
later tick. Concretely, with pool [0, 1] and target 2, two ticks that both
draw rng 0 both dial address 0, while address 1 is never tried. -/
theorem tried_set_not_persisted_across_ticks :
    (∀ (kc0 : KeepConnected) (ticks : List (Nat × Nat)),
      ∀ p ∈ loopTrace kc0 ticks, p.1 = kc0.earlier) ∧
    (loopTrace (Constructor.mkKeepConnected [0, 1] 2) [(0, 0), (1, 0)]).map
        (fun p => dialsOf p.2) = [[0], [0]] := by
  constructor
  · intro kc0 ticks
    induction ticks with
    | nil => intro p hp; cases hp
    | cons t rest ih =>
        obtain ⟨n, r⟩ := t
        intro p hp
        simp only [loopTrace, List.mem_cons] at hp
        rcases hp with hp | hp
        · rw [hp]
        · exact ih p hp
  · decide

/-- C9 witness: the single-tick trace of the pool-[0, 1] value contains the
entry whose observed tried-set is the startup (empty) set. -/
theorem tried_set_not_persisted_across_ticks_witness :
    ((∅ : Finset SocketAddr), [MEvent.markTried 0, MEvent.dial 0]) ∈
      loopTrace (Constructor.mkKeepConnected [0, 1] 2) [(0, 0)] ∧
    ((∅ : Finset SocketAddr), [MEvent.markTried 0, MEvent.dial 0]).1 =
      (Constructor.mkKeepConnected [0, 1] 2).earlier :=
  ⟨by decide,
    tried_set_not_persisted_across_ticks.1
      (Constructor.mkKeepConnected [0, 1] 2) [(0, 0)] _ (by decide)⟩

/-- C1 evaluated at the failing input: pool of five addresses
[10, 11, 12, 13, 14], target 3, zero connected peers, every dial succeeding,
rng drawing 0 on every tick. After 3 maintenance ticks the connected-peer
count is 3 as the claim says, but all three ticks dial address 10: exactly one
distinct address is marked tried, not three, because each tick polls a fresh
clone whose tried-set is empty. -/
theorem three_tick_scenario_repeats_address :
    runTicksAllSucceed (Constructor.mkKeepConnected [10, 11, 12, 13, 14] 3) 0
        [0, 0, 0] = (3, [10, 10, 10]) ∧
    ([10, 10, 10] : List SocketAddr).toFinset.card = 1 ∧
    ¬ ([10, 10, 10] : List SocketAddr).toFinset.card = 3 := by
  decide

/-- C4: the inbound-message path of `Constructor::new` is the single bounded
queue made by its one `sync_channel` call: the capacity is fixed at
construction to `BACK_PRESSURE`, which equals 10; the same bound is handed to
`P2P::new`; a producer pushing into a full queue blocks (the message is not
dropped); and a successful push never exceeds the capacity. -/
theorem inbound_channel_capacity_back_pressure :
    BACK_PRESSURE = 10 ∧
    (∀ (network : Network) (nonce : Nat) (pv : String)
        (listen : List SocketAddr),
      (Constructor.new network nonce pv listen).channel =
        sync_channel Envelope BACK_PRESSURE ∧
      (Constructor.new network nonce pv listen).channel.capacity = 10 ∧
      (Constructor.new network nonce pv listen).p2p_back_pressure =
        BACK_PRESSURE) ∧
    (∀ (c : SyncChannel Envelope) (m : Envelope),
      c.capacity ≤ c.buffer.length → c.send m = SendResult.blocked) ∧
    (∀ (c : SyncChannel Envelope) (m : Envelope) (c2 : SyncChannel Envelope),
      c.send m = SendResult.sent c2 →
        c2.capacity = c.capacity ∧ c2.buffer.length ≤ c.capacity) := by
  refine ⟨rfl, fun network nonce pv listen => ⟨rfl, rfl, rfl⟩, ?_, ?_⟩
  · intro c m h
    have hnot : ¬ c.buffer.length < c.capacity := Nat.not_lt.mpr h
    unfold SyncChannel.send
    rw [if_neg hnot]
  · intro c m c2 h
    by_cases hlt : c.buffer.length < c.capacity
    · unfold SyncChannel.send at h
      rw [if_pos hlt] at h
      injection h with h2
      subst h2
      refine ⟨rfl, ?_⟩
      simp only [List.length_append, List.length_cons, List.length_nil]
      omega
    · unfold SyncChannel.send at h
      rw [if_neg hlt] at h
      cases h

/-- C4 witness: a channel of capacity 10 holding 10 envelopes blocks the next
producer push. -/
theorem inbound_channel_capacity_back_pressure_witness :
    (SyncChannel.mk 10 (List.replicate 10 (Envelope.mk 0 0)) :
        SyncChannel Envelope).capacity ≤
      (SyncChannel.mk 10 (List.replicate 10 (Envelope.mk 0 0)) :
        SyncChannel Envelope).buffer.length ∧
    (SyncChannel.mk 10 (List.replicate 10 (Envelope.mk 0 0)) :
        SyncChannel Envelope).send (Envelope.mk 0 0) = SendResult.blocked :=
  ⟨by decide,
    inbound_channel_capacity_back_pressure.2.2.1
      (SyncChannel.mk 10 (List.replicate 10 (Envelope.mk 0 0)))
      (Envelope.mk 0 0) (by decide)⟩

/-- If the per-peer startup spawn loop succeeds, every spawn it consulted
answered ok. -/
theorem spawnPeersLoop_ok_all_spawns (peers : List SocketAddr) :
    ∀ (spawn : Nat → SpawnOutcome) (ds : List SocketAddr),
      spawnPeersLoop peers spawn = Except.ok ds →
      ∀ i, i < peers.length → spawn i = SpawnOutcome.ok := by
  induction peers with
  | nil =>
      intro spawn ds h i hi
      simp at hi
  | cons a rest ih =>
      intro spawn ds h i hi
      simp only [spawnPeersLoop] at h
      split at h
      · cases h
      · rename_i hs0
        split at h
        · cases h
        · rename_i ds2 hr
          cases i with
          | zero => exact hs0
          | succ j =>
              exact ih (fun k => spawn (k + 1)) ds2 hr j
                (Nat.lt_of_succ_lt_succ hi)

/-- If `Constructor::run`'s startup section succeeds, every spawn it attempted
— the per-peer dials and the interval loop — answered ok. -/
theorem runStartup_ok_all_spawns (peers : List SocketAddr)
    (spawn : Nat → SpawnOutcome) (ds : List SocketAddr)
    (h : Constructor.runStartup peers spawn = Except.ok ds) :
    ∀ i, i ≤ peers.length → spawn i = SpawnOutcome.ok := by
  intro i hi
  unfold Constructor.runStartup at h
  split at h
  · cases h
  · rename_i ds2 hloop
    split at h
    · cases h
    · rename_i hend
      rcases Nat.lt_or_ge i peers.length with hlt | hge
      · exact spawnPeersLoop_ok_all_spawns peers spawn ds2 hloop i hlt
      · have he : i = peers.length := Nat.le_antisymm hi hge
        rw [he]
        exact hend

/-- C5: a spawn failure is fatal to the enclosing task at each of the three
spawn sites — the startup dials for the initial peer list and the
keep-connected interval loop in `Constructor::run`, and the
maintainer-initiated outbound dial in `KeepConnected::poll` — the task panics
(`expect`) rather than silently dropping the work. -/
theorem spawn_failure_panics :
    (∀ (peers : List SocketAddr) (spawn : Nat → SpawnOutcome),
      (∃ i, i ≤ peers.length ∧ spawn i = SpawnOutcome.failed) →
      ∃ m, Constructor.runStartup peers spawn = Except.error m) ∧
    (∀ (kc : KeepConnected) (n rng : Nat),
      ¬ dialsOf (kc.poll n rng).2 = [] →
      kc.pollSpawning n rng SpawnOutcome.failed =
        Except.error "can not add peer for outgoing connection") := by
  constructor
  · intro peers spawn hex
    obtain ⟨i, hle, hfail⟩ := hex
    cases hres : Constructor.runStartup peers spawn with
    | error m => exact ⟨m, rfl⟩
    | ok ds =>
        have hok := runStartup_ok_all_spawns peers spawn ds hres i hle
        rw [hok] at hfail
        cases hfail
  · intro kc n rng h
    simp only [KeepConnected.pollSpawning]
    rw [if_neg h]

/-- C5 witness: a pool that refuses every spawn makes the startup section with
one initial peer panic, and makes a dialing maintenance tick panic. -/
theorem spawn_failure_panics_witness :
    (∃ i, i ≤ ([7] : List SocketAddr).length ∧
      (fun _ => SpawnOutcome.failed) i = SpawnOutcome.failed) ∧
    (∃ m, Constructor.runStartup [7] (fun _ => SpawnOutcome.failed) =
      Except.error m) ∧
    ¬ dialsOf ((Constructor.mkKeepConnected [0] 1).poll 0 0).2 = [] ∧
    (Constructor.mkKeepConnected [0] 1).pollSpawning 0 0 SpawnOutcome.failed =
      Except.error "can not add peer for outgoing connection" := by
  refine ⟨⟨0, by decide, rfl⟩, ?_, by decide, ?_⟩
  · exact spawn_failure_panics.1 [7] (fun _ => SpawnOutcome.failed)
      ⟨0, by decide, rfl⟩
  · exact spawn_failure_panics.2 (Constructor.mkKeepConnected [0] 1) 0 0
      (by decide)

end Murmel
